import Mathlib

/-!
Shallow embedding of `AddonModForumHelperProvider`
(`src/addon/mod/forum/providers/helper.ts` of moodlemobile2).

Collaborator calls (offline folder naming, file store, uploader, user
profile, discussion listing, translation, date formatting) are passed in
as function parameters whose results are `Except` values: a resolved
promise is `Except.ok`, a rejected promise is `Except.error`.  The
element type of attachment entries is abstract (`α`), since the helper
never inspects individual files, and the collaborator error type is
abstract (`ε`), since errors pass through unchanged.  Machine numbers
(ids, timestamps) are modelled as `Int`.
-/

/-- A user profile as returned by the profile collaborator
(`CoreUserProvider.getProfile`). -/
structure UserProfile where
  fullname : String
  profileimageurl : String
deriving DecidableEq

/-- The `attachmentsid` field of an offline reply's options:
`online` is a possibly-absent list of remote file references,
`offline` flags the presence of locally stored files. -/
structure AttachmentsId (α : Type) where
  online : Option (List α)
  offline : Bool

/-- The `options` object stored with an offline reply.  The source field
`private` is a reserved word in Lean, hence the quoted name.  Absent
fields are `none` (JS `undefined`). -/
structure ReplyOptions (α : Type) where
  «private» : Option Bool
  attachmentsid : Option (AttachmentsId α)

/-- An offline (draft) reply, as read from the offline store. -/
structure OfflineReply (α : Type) where
  timecreated : Int
  discussionid : Int
  postid : Int
  message : String
  subject : String
  userid : Int
  courseid : Int
  forumid : Int
  options : Option (ReplyOptions α)

/-- The online-shaped post built by `convertOfflineReplyToOnline`.
Fields mirror the object literal at lines 47-66 of the source; the
fields `userfullname`, `userpictureurl` (added only on profile success)
and `attachment` (computed after the join) are `none` / `0` until set.
`children` is always the empty list in this module; its element type is
irrelevant here. -/
structure OnlinePost (α : Type) where
  attachments : List α
  canreply : Bool
  children : List Int
  created : Int
  discussion : Int
  id : Bool
  mailed : Int
  mailnow : Int
  message : String
  messageformat : Int
  messagetrust : Int
  modified : Bool
  parent : Int
  postread : Bool
  subject : String
  totalscore : Int
  userid : Int
  isprivatereply : Option Bool
  userfullname : Option String
  userpictureurl : Option String
  attachment : Int

/-- The remote attachment list the conversion starts from:
`offlineReply.options.attachmentsid.online || []` when the source's
guard `offlineReply.options && offlineReply.options.attachmentsid`
holds, the initial `[]` otherwise (lines 48, 70-71). -/
def onlineAttachments {α : Type} (offlineReply : OfflineReply α) : List α :=
  match offlineReply.options with
  | some opts =>
    match opts.attachmentsid with
    | some atts => atts.online.getD []
    | none => []
  | none => []

/-- Whether the conversion must also list locally stored files:
`offlineReply.options && offlineReply.options.attachmentsid &&
offlineReply.options.attachmentsid.offline` (lines 70, 73). -/
def hasOfflineAttachments {α : Type} (offlineReply : OfflineReply α) : Bool :=
  match offlineReply.options with
  | some opts =>
    match opts.attachmentsid with
    | some atts => atts.offline
    | none => false
  | none => false

/-- `getReplyStoredFiles` (lines 206-210): derive the reply folder, then
list the stored files in it.  Both collaborator failures propagate. -/
def getReplyStoredFiles {ε α : Type}
    (getReplyFolder : Int → Int → Option String → Option Int → Except ε String)
    (getStoredFiles : String → Except ε (List α))
    (forumId postId : Int) (siteId : Option String) (userId : Option Int) :
    Except ε (List α) :=
  match getReplyFolder forumId postId siteId userId with
  | Except.error e => Except.error e
  | Except.ok folderPath => getStoredFiles folderPath

/-- `convertOfflineReplyToOnline` (lines 46-94).  The skeleton is the
object literal of lines 47-66; if local attachments are flagged, the
stored-file listing is joined in (its failure propagates, failing the
whole `Promise.all`); the profile fetch is always joined in with its
failure swallowed (lines 82-87); finally `attachment` is recomputed from
the merged list (line 90). -/
def convertOfflineReplyToOnline {ε α : Type}
    (getReplyFolder : Int → Int → Option String → Option Int → Except ε String)
    (getStoredFiles : String → Except ε (List α))
    (getProfile : Int → Int → Bool → Except ε UserProfile)
    (offlineReply : OfflineReply α) (siteId : Option String) :
    Except ε (OnlinePost α) :=
  let base : OnlinePost α :=
    { attachments := onlineAttachments offlineReply
      canreply := false
      children := []
      created := offlineReply.timecreated
      discussion := offlineReply.discussionid
      id := false
      mailed := 0
      mailnow := 0
      message := offlineReply.message
      messageformat := 1
      messagetrust := 0
      modified := false
      parent := offlineReply.postid
      postread := false
      subject := offlineReply.subject
      totalscore := 0
      userid := offlineReply.userid
      isprivatereply := offlineReply.options.bind (fun opts => opts.«private»)
      userfullname := none
      userpictureurl := none
      attachment := 0 }
  let withProfile : OnlinePost α → OnlinePost α := fun reply =>
    match getProfile offlineReply.userid offlineReply.courseid true with
    | Except.ok user =>
      { reply with userfullname := some user.fullname
                   userpictureurl := some user.profileimageurl }
    | Except.error _ => reply
  let finish : List α → OnlinePost α := fun atts =>
    withProfile { base with attachments := atts
                            attachment := if 0 < atts.length then 1 else 0 }
  if hasOfflineAttachments offlineReply then
    match getReplyStoredFiles getReplyFolder getStoredFiles
        offlineReply.forumid offlineReply.postid siteId
        (some offlineReply.userid) with
    | Except.error e => Except.error e
    | Except.ok files => Except.ok (finish (onlineAttachments offlineReply ++ files))
  else
    Except.ok (finish (onlineAttachments offlineReply))

/-- `deleteNewDiscussionStoredFiles` (lines 104-110): derive the
new-discussion folder (failure propagates), remove it, and catch every
`removeDir` error (lines 106-108). -/
def deleteNewDiscussionStoredFiles {ε : Type}
    (getNewDiscussionFolder : Int → Int → Option String → Except ε String)
    (removeDir : String → Except ε Unit)
    (forumId timecreated : Int) (siteId : Option String) : Except ε Unit :=
  match getNewDiscussionFolder forumId timecreated siteId with
  | Except.error e => Except.error e
  | Except.ok folderPath =>
    match removeDir folderPath with
    | Except.ok u => Except.ok u
    | Except.error _ => Except.ok ()

/-- `deleteReplyStoredFiles` (lines 121-127): derive the reply folder
(failure propagates), remove it, and catch every `removeDir` error
(lines 123-125). -/
def deleteReplyStoredFiles {ε : Type}
    (getReplyFolder : Int → Int → Option String → Option Int → Except ε String)
    (removeDir : String → Except ε Unit)
    (forumId postId : Int) (siteId : Option String) (userId : Option Int) :
    Except ε Unit :=
  match getReplyFolder forumId postId siteId userId with
  | Except.error e => Except.error e
  | Except.ok folderPath =>
    match removeDir folderPath with
    | Except.ok u => Except.ok u
    | Except.error _ => Except.ok ()

/-- A forum instance, restricted to the fields the helper reads. -/
structure Forum where
  cutoffdate : Int
  duedate : Int
deriving DecidableEq

/-- `isCutoffDateReached` (lines 242-246); `now` (seconds) is the
source's `Date.now() / 1000`, passed explicitly. -/
def isCutoffDateReached (now : Int) (forum : Forum) : Bool :=
  decide (forum.cutoffdate > 0) && decide (forum.cutoffdate < now)

/-- `isDueDateReached` (lines 254-258); `now` (seconds) is the source's
`Date.now() / 1000`, passed explicitly. -/
def isDueDateReached (now : Int) (forum : Forum) : Bool :=
  decide (forum.duedate > 0) && decide (forum.duedate < now)

/-- `getAvailabilityMessage` (lines 135-149).  `translate` models
`TranslateService.instant` (key, optional formatted parameter) and
`userDate` models `CoreTimeUtilsProvider.userDate`; the source returns
`null` when neither date applies, modelled as `none`. -/
def getAvailabilityMessage (translate : String → Option String → String)
    (userDate : Int → String) (now : Int) (forum : Forum) : Option String :=
  if isCutoffDateReached now forum then
    some (translate "addon.mod_forum.cutoffdatereached" none)
  else if isDueDateReached now forum then
    some (translate "addon.mod_forum.thisforumisdue"
      (some (userDate (forum.duedate * 1000))))
  else if forum.duedate > 0 then
    some (translate "addon.mod_forum.thisforumhasduedate"
      (some (userDate (forum.duedate * 1000))))
  else
    none

/-- A discussion, restricted to the field `getDiscussionById` reads plus
a payload distinguishing discussions with the same id in tests. -/
structure ForumDiscussion where
  id : Int
  name : String
deriving DecidableEq

/-- One page returned by the discussion-listing collaborator
(`AddonModForumProvider.getDiscussions`). -/
structure DiscussionsPage where
  discussions : List ForumDiscussion
  canLoadMore : Bool
deriving DecidableEq

/-- The failure modes of the discussion search: the source's
`Promise.reject(null)` (not found), or the listing collaborator itself
rejecting when asked for a page it cannot supply. -/
inductive LocateError where
  | notFound
  | pageUnavailable
deriving DecidableEq

/-- The inner `findDiscussion` recursion of `getDiscussionById`
(lines 164-178), with the collaborator's successive page responses
supplied as a list (head = the page requested first).  An exhausted
list models the collaborator rejecting the next page fetch. -/
def findDiscussion (discussionId : Int) :
    List DiscussionsPage → Except LocateError ForumDiscussion
  | [] => Except.error LocateError.pageUnavailable
  | page :: rest =>
    if 0 < page.discussions.length then
      match page.discussions.find? (fun d => d.id == discussionId) with
      | some discussion => Except.ok discussion
      | none =>
        if page.canLoadMore then findDiscussion discussionId rest
        else Except.error LocateError.notFound
    else Except.error LocateError.notFound

/-- `getDiscussionById` (lines 161-181): run the page scan starting at
page 0 (the head of the collaborator's page sequence). -/
def getDiscussionById (discussionId : Int)
    (pages : List DiscussionsPage) : Except LocateError ForumDiscussion :=
  findDiscussion discussionId pages

/-- Current/original data compared by `hasPostDataChanged`, restricted
to the fields it reads; absent JS fields are `none`. -/
structure PostData (φ : Type) where
  subject : Option String
  message : Option String
  isprivatereply : Option Bool
  files : List φ

/-- `hasPostDataChanged` (lines 219-234).  `areFileListDifferent` is the
uploader collaborator's file-list comparison, passed in. -/
def hasPostDataChanged {φ : Type}
    (areFileListDifferent : List φ → List φ → Bool)
    (post : PostData φ) (original : Option (PostData φ)) : Bool :=
  match original with
  | none => false
  | some orig =>
    if orig.subject = none then false
    else if post.subject ≠ orig.subject ∨ post.message ≠ orig.message then true
    else if post.isprivatereply ≠ orig.isprivatereply then true
    else areFileListDifferent post.files orig.files

/-- Modelled from the spec: `AddonModForumProvider.COMPONENT`, the forum
component identifier used to tag uploads.  Its defining module
(`providers/forum.ts`) is outside the provided sources; the spec only
requires uploads to be tagged with this identifier. -/
def AddonModForumProvider.COMPONENT : String := "mmaForum"

/-- `storeNewDiscussionFiles` (lines 270-275): derive the
new-discussion folder, then store the files there. -/
def storeNewDiscussionFiles {ε α ρ : Type}
    (getNewDiscussionFolder : Int → Int → Option String → Except ε String)
    (storeFilesToUpload : String → List α → Except ε ρ)
    (forumId timecreated : Int) (files : List α) (siteId : Option String) :
    Except ε ρ :=
  match getNewDiscussionFolder forumId timecreated siteId with
  | Except.error e => Except.error e
  | Except.ok folderPath => storeFilesToUpload folderPath files

/-- `storeReplyFiles` (lines 288-293): derive the reply folder, then
store the files there. -/
def storeReplyFiles {ε α ρ : Type}
    (getReplyFolder : Int → Int → Option String → Option Int → Except ε String)
    (storeFilesToUpload : String → List α → Except ε ρ)
    (forumId postId : Int) (files : List α) (siteId : Option String)
    (userId : Option Int) : Except ε ρ :=
  match getReplyFolder forumId postId siteId userId with
  | Except.error e => Except.error e
  | Except.ok folderPath => storeFilesToUpload folderPath files

/-- `uploadOrStoreNewDiscussionFiles` (lines 305-312): store locally
when offline, otherwise upload tagged with the forum component and id. -/
def uploadOrStoreNewDiscussionFiles {ε α ρ : Type}
    (getNewDiscussionFolder : Int → Int → Option String → Except ε String)
    (storeFilesToUpload : String → List α → Except ε ρ)
    (uploadOrReuploadFiles : List α → String → Int → Option String → Except ε ρ)
    (forumId timecreated : Int) (files : List α) (offline : Bool)
    (siteId : Option String) : Except ε ρ :=
  if offline then
    storeNewDiscussionFiles getNewDiscussionFolder storeFilesToUpload
      forumId timecreated files siteId
  else
    uploadOrReuploadFiles files AddonModForumProvider.COMPONENT forumId siteId

/-- `uploadOrStoreReplyFiles` (lines 325-332): store locally when
offline, otherwise upload tagged with the forum component and id. -/
def uploadOrStoreReplyFiles {ε α ρ : Type}
    (getReplyFolder : Int → Int → Option String → Option Int → Except ε String)
    (storeFilesToUpload : String → List α → Except ε ρ)
    (uploadOrReuploadFiles : List α → String → Int → Option String → Except ε ρ)
    (forumId postId : Int) (files : List α) (offline : Bool)
    (siteId : Option String) (userId : Option Int) : Except ε ρ :=
  if offline then
    storeReplyFiles getReplyFolder storeFilesToUpload
      forumId postId files siteId userId
  else
    uploadOrReuploadFiles files AddonModForumProvider.COMPONENT forumId siteId

/-- A concrete error type for witnesses and counterexamples:
`folderNotFound` is the "folder does not exist" condition of the file
store, `permissionDenied` stands for any other failure. -/
inductive FileError where
  | folderNotFound
  | permissionDenied
deriving DecidableEq

/-- Claim C1 counterexample: with the folder path derived successfully
and `removeDir` failing with a condition other than "folder does not
exist" (`permissionDenied`), `deleteNewDiscussionStoredFiles` still
resolves successfully instead of propagating the failure unchanged. -/
theorem c1_counterexample :
    deleteNewDiscussionStoredFiles
        (fun _ _ _ => Except.ok "site/offlineforum/1_100")
        (fun _ => Except.error FileError.permissionDenied) 1 100 none
      = Except.ok () ∧
    deleteNewDiscussionStoredFiles
        (fun _ _ _ => Except.ok "site/offlineforum/1_100")
        (fun _ => Except.error FileError.permissionDenied) 1 100 none
      ≠ Except.error FileError.permissionDenied := by
  constructor
  · rfl
  · intro h
    exact Except.noConfusion h

/-- Claim C1 (amended): for every folder key, the delete operations
succeed whenever the folder path is derived — in particular when the
folder does not exist, so deleting the same key twice both succeed —
because every failure of the underlying `removeDir` (not only the
"folder does not exist" condition) is swallowed; only a failure to
derive the folder path propagates unchanged. -/
theorem delete_swallows_every_removeDir_failure {ε : Type}
    (getNewDiscussionFolder : Int → Int → Option String → Except ε String)
    (getReplyFolder : Int → Int → Option String → Option Int → Except ε String)
    (removeDir : String → Except ε Unit)
    (forumId timecreated postId : Int) (siteId : Option String)
    (userId : Option Int) :
    deleteNewDiscussionStoredFiles getNewDiscussionFolder removeDir
        forumId timecreated siteId
      = (match getNewDiscussionFolder forumId timecreated siteId with
         | Except.ok _ => Except.ok ()
         | Except.error e => Except.error e) ∧
    deleteReplyStoredFiles getReplyFolder removeDir
        forumId postId siteId userId
      = (match getReplyFolder forumId postId siteId userId with
         | Except.ok _ => Except.ok ()
         | Except.error e => Except.error e) := by
  constructor
  · cases hg : getNewDiscussionFolder forumId timecreated siteId with
    | error e => simp [deleteNewDiscussionStoredFiles, hg]
    | ok folderPath =>
      cases hr : removeDir folderPath with
      | ok u => simp [deleteNewDiscussionStoredFiles, hg, hr]
      | error e => simp [deleteNewDiscussionStoredFiles, hg, hr]
  · cases hg : getReplyFolder forumId postId siteId userId with
    | error e => simp [deleteReplyStoredFiles, hg]
    | ok folderPath =>
      cases hr : removeDir folderPath with
      | ok u => simp [deleteReplyStoredFiles, hg, hr]
      | error e => simp [deleteReplyStoredFiles, hg, hr]

/-- Claim C9: the upload-or-store operations branch only on the offline
flag: when offline they store the files under the corresponding folder
key and return that result; when online they delegate to the uploader's
upload-or-reupload operation tagged with the forum component identifier
and the forum id, returning its result unchanged. -/
theorem uploadOrStore_branches_only_on_offline {ε α ρ : Type}
    (getNewDiscussionFolder : Int → Int → Option String → Except ε String)
    (getReplyFolder : Int → Int → Option String → Option Int → Except ε String)
    (storeFilesToUpload : String → List α → Except ε ρ)
    (uploadOrReuploadFiles : List α → String → Int → Option String → Except ε ρ)
    (forumId timecreated postId : Int) (files : List α)
    (siteId : Option String) (userId : Option Int) :
    uploadOrStoreNewDiscussionFiles getNewDiscussionFolder storeFilesToUpload
        uploadOrReuploadFiles forumId timecreated files true siteId
      = storeNewDiscussionFiles getNewDiscussionFolder storeFilesToUpload
          forumId timecreated files siteId ∧
    uploadOrStoreNewDiscussionFiles getNewDiscussionFolder storeFilesToUpload
        uploadOrReuploadFiles forumId timecreated files false siteId
      = uploadOrReuploadFiles files AddonModForumProvider.COMPONENT forumId siteId ∧
    uploadOrStoreReplyFiles getReplyFolder storeFilesToUpload
        uploadOrReuploadFiles forumId postId files true siteId userId
      = storeReplyFiles getReplyFolder storeFilesToUpload
          forumId postId files siteId userId ∧
    uploadOrStoreReplyFiles getReplyFolder storeFilesToUpload
        uploadOrReuploadFiles forumId postId files false siteId userId
      = uploadOrReuploadFiles files AddonModForumProvider.COMPONENT forumId siteId :=
  ⟨rfl, rfl, rfl, rfl⟩

/-- Claim C8: `getAvailabilityMessage` follows strict precedence: if the
cutoff date is positive and past it returns the cutoff-reached message;
else if the due date is positive and past it returns the due-reached
message with the formatted due date; else if the due date is positive it
returns the has-due-date message with the formatted due date; else it
returns `none`. -/
theorem getAvailabilityMessage_precedence
    (translate : String → Option String → String) (userDate : Int → String)
    (now : Int) (forum : Forum) :
    (forum.cutoffdate > 0 → forum.cutoffdate < now →
      getAvailabilityMessage translate userDate now forum
        = some (translate "addon.mod_forum.cutoffdatereached" none)) ∧
    (¬(forum.cutoffdate > 0 ∧ forum.cutoffdate < now) →
      forum.duedate > 0 → forum.duedate < now →
      getAvailabilityMessage translate userDate now forum
        = some (translate "addon.mod_forum.thisforumisdue"
            (some (userDate (forum.duedate * 1000))))) ∧
    (¬(forum.cutoffdate > 0 ∧ forum.cutoffdate < now) →
      forum.duedate > 0 → ¬(forum.duedate < now) →
      getAvailabilityMessage translate userDate now forum
        = some (translate "addon.mod_forum.thisforumhasduedate"
            (some (userDate (forum.duedate * 1000))))) ∧
    (¬(forum.cutoffdate > 0 ∧ forum.cutoffdate < now) →
      ¬(forum.duedate > 0) →
      getAvailabilityMessage translate userDate now forum = none) := by
  refine ⟨?_, ?_, ?_, ?_⟩
  · intro h1 h2
    simp [getAvailabilityMessage, isCutoffDateReached, h1, h2]
  · intro h1 h2 h3
    have hc : isCutoffDateReached now forum = false := by
      rcases not_and_or.mp h1 with h | h <;> simp [isCutoffDateReached, h]
    have hd : isDueDateReached now forum = true := by
      simp [isDueDateReached, h2, h3]
    simp [getAvailabilityMessage, hc, hd]
  · intro h1 h2 h3
    have hc : isCutoffDateReached now forum = false := by
      rcases not_and_or.mp h1 with h | h <;> simp [isCutoffDateReached, h]
    have hd : isDueDateReached now forum = false := by
      simp [isDueDateReached, h3]
    simp [getAvailabilityMessage, hc, hd, h2]
  · intro h1 h2
    have hc : isCutoffDateReached now forum = false := by
      rcases not_and_or.mp h1 with h | h <;> simp [isCutoffDateReached, h]
    have hd : isDueDateReached now forum = false := by
      simp [isDueDateReached, h2]
    simp [getAvailabilityMessage, hc, hd, h2]

/-- A concrete translation collaborator for witnesses: the key, with the
formatted parameter appended when present. -/
def trC : String → Option String → String := fun key arg =>
  match arg with
  | some s => key ++ ":" ++ s
  | none => key

/-- A concrete date-formatting collaborator for witnesses. -/
def udC : Int → String := fun ms => toString ms

/-- Witness for claim C8, at the four concrete inputs of the spec:
cutoff 100 and due 200 at time 150 give the cutoff message; cutoff 0 and
due 100 give the due-reached message; cutoff 0 and due 200 give the
has-due-date message; both zero give `none`. -/
theorem getAvailabilityMessage_precedence_witness :
    getAvailabilityMessage trC udC 150 ⟨100, 200⟩
      = some (trC "addon.mod_forum.cutoffdatereached" none) ∧
    getAvailabilityMessage trC udC 150 ⟨0, 100⟩
      = some (trC "addon.mod_forum.thisforumisdue" (some (udC (100 * 1000)))) ∧
    getAvailabilityMessage trC udC 150 ⟨0, 200⟩
      = some (trC "addon.mod_forum.thisforumhasduedate" (some (udC (200 * 1000)))) ∧
    getAvailabilityMessage trC udC 150 ⟨0, 0⟩ = none :=
  ⟨(getAvailabilityMessage_precedence trC udC 150 ⟨100, 200⟩).1
      (by decide) (by decide),
   (getAvailabilityMessage_precedence trC udC 150 ⟨0, 100⟩).2.1
      (by decide) (by decide) (by decide),
   (getAvailabilityMessage_precedence trC udC 150 ⟨0, 200⟩).2.2.1
      (by decide) (by decide) (by decide),
   (getAvailabilityMessage_precedence trC udC 150 ⟨0, 0⟩).2.2.2
      (by decide) (by decide)⟩

/-- Claim C2: `getDiscussionById` scans the collaborator's pages
sequentially starting at page 0: a page whose discussion list contains
the target id returns that discussion immediately (first match wins); a
non-empty page without the target that indicates more pages advances the
scan to the next page; a page without the target and no further pages,
or an empty page, fails with the not-found condition. -/
theorem getDiscussionById_sequential_scan (discussionId : Int)
    (page : DiscussionsPage) (rest : List DiscussionsPage) :
    getDiscussionById discussionId (page :: rest)
      = findDiscussion discussionId (page :: rest) ∧
    (∀ d, page.discussions.find? (fun x => x.id == discussionId) = some d →
      findDiscussion discussionId (page :: rest) = Except.ok d) ∧
    (page.discussions.find? (fun x => x.id == discussionId) = none →
      page.discussions ≠ [] → page.canLoadMore = true →
      findDiscussion discussionId (page :: rest)
        = findDiscussion discussionId rest) ∧
    (page.discussions.find? (fun x => x.id == discussionId) = none →
      page.canLoadMore = false →
      findDiscussion discussionId (page :: rest)
        = Except.error LocateError.notFound) ∧
    (page.discussions = [] →
      findDiscussion discussionId (page :: rest)
        = Except.error LocateError.notFound) := by
  refine ⟨rfl, ?_, ?_, ?_, ?_⟩
  · intro d hd
    have hne : 0 < page.discussions.length := by
      cases hl : page.discussions with
      | nil => rw [hl] at hd; simp at hd
      | cons a as => simp [hl]
    simp [findDiscussion, hne, hd]
  · intro hn hne hc
    have hl : 0 < page.discussions.length := List.length_pos.mpr hne
    simp [findDiscussion, hl, hn, hc]
  · intro hn hc
    by_cases hl : 0 < page.discussions.length
    · simp [findDiscussion, hl, hn, hc]
    · simp [findDiscussion, hl]
  · intro he
    simp [findDiscussion, he]

/-- Witness for claim C2: three pages with the target discussion 42 on
the third page; the scan advances through pages 0 and 1 and returns the
match found on page 2. -/
theorem getDiscussionById_sequential_scan_witness :
    getDiscussionById 42
        [⟨[⟨1, "a"⟩, ⟨2, "b"⟩], true⟩, ⟨[⟨3, "c"⟩], true⟩,
         ⟨[⟨41, "d"⟩, ⟨42, "target"⟩], false⟩]
      = Except.ok ⟨42, "target"⟩ := by
  have h0 := getDiscussionById_sequential_scan 42 ⟨[⟨1, "a"⟩, ⟨2, "b"⟩], true⟩
      [⟨[⟨3, "c"⟩], true⟩, ⟨[⟨41, "d"⟩, ⟨42, "target"⟩], false⟩]
  have h1 := getDiscussionById_sequential_scan 42 ⟨[⟨3, "c"⟩], true⟩
      [⟨[⟨41, "d"⟩, ⟨42, "target"⟩], false⟩]
  have h2 := getDiscussionById_sequential_scan 42
      ⟨[⟨41, "d"⟩, ⟨42, "target"⟩], false⟩ []
  rw [h0.1, h0.2.2.1 (by decide) (by decide) rfl,
      h1.2.2.1 (by decide) (by decide) rfl,
      h2.2.1 ⟨42, "target"⟩ (by decide)]

/-- Claim C7: `hasPostDataChanged` returns `false` whenever the original
is absent or its subject is unset; otherwise it returns `true` exactly
when the subject, message or private-reply flag differ, or, all three
being equal, when the collaborator's file-list comparison reports a
difference. -/
theorem hasPostDataChanged_characterization {φ : Type}
    (areFileListDifferent : List φ → List φ → Bool)
    (post orig : PostData φ) :
    hasPostDataChanged areFileListDifferent post none = false ∧
    (orig.subject = none →
      hasPostDataChanged areFileListDifferent post (some orig) = false) ∧
    (orig.subject ≠ none →
      hasPostDataChanged areFileListDifferent post (some orig)
        = (decide (post.subject ≠ orig.subject) ||
           decide (post.message ≠ orig.message) ||
           decide (post.isprivatereply ≠ orig.isprivatereply) ||
           areFileListDifferent post.files orig.files)) := by
  refine ⟨rfl, ?_, ?_⟩
  · intro h
    simp [hasPostDataChanged, h]
  · intro h
    by_cases h1 : post.subject = orig.subject <;>
      by_cases h2 : post.message = orig.message <;>
        by_cases h3 : post.isprivatereply = orig.isprivatereply <;>
          simp [hasPostDataChanged, h, h1, h2, h3]

/-- Concrete order-independent file-list comparison for witnesses:
lists differ when either one has a member the other lacks. -/
def cmpC : List String → List String → Bool := fun a b =>
  !(a.all (fun x => b.contains x) && b.all (fun x => a.contains x))

/-- Current post data for the claim C7 witness. -/
def postC : PostData String := ⟨some "subj", some "msg", some false, ["f1"]⟩

/-- Original post data with an unset subject, for the claim C7 witness. -/
def origNoSubjectC : PostData String := ⟨none, some "msg", none, []⟩

/-- Original post data with a set subject, for the claim C7 witness. -/
def origC : PostData String := ⟨some "subj2", some "msg", some false, ["f1"]⟩

/-- Witness for claim C7 at concrete inputs: absent original and unset
original subject give `false`; a set original subject gives the
disjunction of the field comparisons and the file-list comparison. -/
theorem hasPostDataChanged_characterization_witness :
    hasPostDataChanged cmpC postC none = false ∧
    hasPostDataChanged cmpC postC (some origNoSubjectC) = false ∧
    hasPostDataChanged cmpC postC (some origC)
      = (decide (postC.subject ≠ origC.subject) ||
         decide (postC.message ≠ origC.message) ||
         decide (postC.isprivatereply ≠ origC.isprivatereply) ||
         cmpC postC.files origC.files) :=
  ⟨(hasPostDataChanged_characterization cmpC postC origC).1,
   (hasPostDataChanged_characterization cmpC postC origNoSubjectC).2.1 rfl,
   (hasPostDataChanged_characterization cmpC postC origC).2.2 (by decide)⟩

/-- Claim C4: when the draft's attachments mark a locally stored
component and the stored-file listing (through the folder key derived
from the forum id, the parent post id, the site id and the user id)
rejects, the whole conversion rejects with that same failure. -/
theorem convert_fails_when_listing_fails {ε α : Type}
    (getReplyFolder : Int → Int → Option String → Option Int → Except ε String)
    (getStoredFiles : String → Except ε (List α))
    (getProfile : Int → Int → Bool → Except ε UserProfile)
    (offlineReply : OfflineReply α) (siteId : Option String) (e : ε)
    (h1 : hasOfflineAttachments offlineReply = true)
    (h2 : getReplyStoredFiles getReplyFolder getStoredFiles
        offlineReply.forumid offlineReply.postid siteId
        (some offlineReply.userid) = Except.error e) :
    convertOfflineReplyToOnline getReplyFolder getStoredFiles getProfile
        offlineReply siteId = Except.error e := by
  simp [convertOfflineReplyToOnline, h1, h2]

/-- Claim C3: when the profile collaborator rejects, the conversion
still succeeds (provided the stored-file listing succeeds whenever it is
issued), and the returned post has `userfullname` and `userpictureurl`
left unset. -/
theorem convert_swallows_profile_failure {ε α : Type}
    (getReplyFolder : Int → Int → Option String → Option Int → Except ε String)
    (getStoredFiles : String → Except ε (List α))
    (offlineReply : OfflineReply α) (siteId : Option String) (e : ε)
    (h : hasOfflineAttachments offlineReply = true →
      ∃ files, getReplyStoredFiles getReplyFolder getStoredFiles
          offlineReply.forumid offlineReply.postid siteId
          (some offlineReply.userid) = Except.ok files) :
    ∃ post, convertOfflineReplyToOnline getReplyFolder getStoredFiles
        (fun _ _ _ => Except.error e) offlineReply siteId
        = Except.ok post ∧
      post.userfullname = none ∧ post.userpictureurl = none := by
  by_cases ho : hasOfflineAttachments offlineReply = true
  · obtain ⟨files, hf⟩ := h ho
    simp [convertOfflineReplyToOnline, ho, hf]
  · have ho' : hasOfflineAttachments offlineReply = false := by
      simpa using ho
    simp [convertOfflineReplyToOnline, ho']

/-- Claim C5: every successful conversion returns a post whose
`attachment` flag is 1 exactly when its merged attachment list is
non-empty; the draft type carries no such flag, so the flag is always
the one recomputed from the merged list. -/
theorem convert_attachment_flag_iff_nonempty {ε α : Type}
    (getReplyFolder : Int → Int → Option String → Option Int → Except ε String)
    (getStoredFiles : String → Except ε (List α))
    (getProfile : Int → Int → Bool → Except ε UserProfile)
    (offlineReply : OfflineReply α) (siteId : Option String)
    (post : OnlinePost α)
    (h : convertOfflineReplyToOnline getReplyFolder getStoredFiles getProfile
        offlineReply siteId = Except.ok post) :
    post.attachment = 1 ↔ post.attachments ≠ [] := by
  by_cases ho : hasOfflineAttachments offlineReply = true
  · cases hf : getReplyStoredFiles getReplyFolder getStoredFiles
        offlineReply.forumid offlineReply.postid siteId
        (some offlineReply.userid) with
    | error e => simp [convertOfflineReplyToOnline, ho, hf] at h
    | ok files =>
      cases hp : getProfile offlineReply.userid offlineReply.courseid true with
      | ok user =>
        simp [convertOfflineReplyToOnline, ho, hf, hp] at h
        subst h
        simp
      | error e =>
        simp [convertOfflineReplyToOnline, ho, hf, hp] at h
        subst h
        simp
  · have ho' : hasOfflineAttachments offlineReply = false := by
      simpa using ho
    cases hp : getProfile offlineReply.userid offlineReply.courseid true with
    | ok user =>
      simp [convertOfflineReplyToOnline, ho', hp] at h
      subst h
      simp
    | error e =>
      simp [convertOfflineReplyToOnline, ho', hp] at h
      subst h
      simp

/-- Claim C6: with remote references present and the locally stored
listing succeeding, the conversion merges the attachments as all remote
entries first, then all local entries, each source's internal order
preserved. -/
theorem convert_merge_order {ε α : Type}
    (getReplyFolder : Int → Int → Option String → Option Int → Except ε String)
    (getStoredFiles : String → Except ε (List α))
    (getProfile : Int → Int → Bool → Except ε UserProfile)
    (offlineReply : OfflineReply α) (siteId : Option String)
    (opts : ReplyOptions α) (atts : AttachmentsId α)
    (remote localFiles : List α)
    (h1 : offlineReply.options = some opts)
    (h2 : opts.attachmentsid = some atts)
    (h3 : atts.online = some remote)
    (h4 : atts.offline = true)
    (h5 : getReplyStoredFiles getReplyFolder getStoredFiles
        offlineReply.forumid offlineReply.postid siteId
        (some offlineReply.userid) = Except.ok localFiles) :
    ∃ post, convertOfflineReplyToOnline getReplyFolder getStoredFiles
        getProfile offlineReply siteId = Except.ok post ∧
      post.attachments = remote ++ localFiles := by
  have ho : hasOfflineAttachments offlineReply = true := by
    simp [hasOfflineAttachments, h1, h2, h4]
  have hoa : onlineAttachments offlineReply = remote := by
    simp [onlineAttachments, h1, h2, h3]
  cases hp : getProfile offlineReply.userid offlineReply.courseid true with
  | ok user => simp [convertOfflineReplyToOnline, ho, hoa, h5, hp]
  | error e => simp [convertOfflineReplyToOnline, ho, hoa, h5, hp]

/-- Claim C10: a draft whose options field is absent converts
successfully whatever the collaborator outcomes: the attachment path is
skipped entirely, the post has an empty attachment list and flag 0, and
`isprivatereply` is left unset rather than an explicit boolean. -/
theorem convert_without_options {ε α : Type}
    (getReplyFolder : Int → Int → Option String → Option Int → Except ε String)
    (getStoredFiles : String → Except ε (List α))
    (getProfile : Int → Int → Bool → Except ε UserProfile)
    (offlineReply : OfflineReply α) (siteId : Option String)
    (h : offlineReply.options = none) :
    ∃ post, convertOfflineReplyToOnline getReplyFolder getStoredFiles
        getProfile offlineReply siteId = Except.ok post ∧
      post.attachments = [] ∧ post.attachment = 0 ∧
      post.isprivatereply = none := by
  have ho : hasOfflineAttachments offlineReply = false := by
    simp [hasOfflineAttachments, h]
  have hoa : onlineAttachments offlineReply = [] := by
    simp [onlineAttachments, h]
  cases hp : getProfile offlineReply.userid offlineReply.courseid true with
  | ok user => simp [convertOfflineReplyToOnline, ho, hoa, hp, h]
  | error e => simp [convertOfflineReplyToOnline, ho, hoa, hp, h]

/-- Reply-folder collaborator for witnesses: always derives a path. -/
def grfC : Int → Int → Option String → Option Int → Except FileError String :=
  fun forumId postId _ userId =>
    Except.ok (toString forumId ++ "_" ++ toString postId ++ "_" ++
      toString (userId.getD 0))

/-- Stored-file listing collaborator that rejects, for witnesses. -/
def gsfFailC : String → Except FileError (List String) :=
  fun _ => Except.error FileError.permissionDenied

/-- Stored-file listing collaborator returning one local file. -/
def gsfOkC : String → Except FileError (List String) :=
  fun _ => Except.ok ["local0"]

/-- Profile collaborator that succeeds, for witnesses. -/
def gpOkC : Int → Int → Bool → Except FileError UserProfile :=
  fun _ _ _ => Except.ok ⟨"Jane Doe", "avatar-url"⟩

/-- An offline reply carrying two remote attachment references and a
locally stored component, for witnesses. -/
def replyWithLocalC : OfflineReply String :=
  ⟨500, 7, 3, "hello", "Re: hi", 11, 2, 1,
   some ⟨some true, some ⟨some ["remote0", "remote1"], true⟩⟩⟩

/-- An offline reply whose options field is absent, for witnesses. -/
def replyNoOptionsC : OfflineReply String :=
  ⟨600, 8, 4, "later", "Re: later", 12, 2, 1, none⟩

/-- Witness for claim C4: the stored-file listing rejects and the whole
conversion rejects with that same failure. -/
theorem convert_fails_when_listing_fails_witness :
    convertOfflineReplyToOnline grfC gsfFailC gpOkC replyWithLocalC none
      = Except.error FileError.permissionDenied :=
  convert_fails_when_listing_fails grfC gsfFailC gpOkC replyWithLocalC none
    FileError.permissionDenied rfl rfl

/-- Witness for claim C3: the profile collaborator rejects, yet the
conversion succeeds with the enrichment fields unset. -/
theorem convert_swallows_profile_failure_witness :
    ∃ post, convertOfflineReplyToOnline grfC gsfOkC
        (fun _ _ _ => Except.error FileError.permissionDenied)
        replyWithLocalC none = Except.ok post ∧
      post.userfullname = none ∧ post.userpictureurl = none :=
  convert_swallows_profile_failure grfC gsfOkC replyWithLocalC none
    FileError.permissionDenied (fun _ => ⟨["local0"], rfl⟩)

/-- The post produced by converting `replyWithLocalC` with both
collaborators succeeding, for witnesses. -/
def convertedPostC : OnlinePost String :=
  { attachments := ["remote0", "remote1", "local0"]
    canreply := false
    children := []
    created := 500
    discussion := 7
    id := false
    mailed := 0
    mailnow := 0
    message := "hello"
    messageformat := 1
    messagetrust := 0
    modified := false
    parent := 3
    postread := false
    subject := "Re: hi"
    totalscore := 0
    userid := 11
    isprivatereply := some true
    userfullname := some "Jane Doe"
    userpictureurl := some "avatar-url"
    attachment := 1 }

/-- Witness for claim C5: the flag of the concretely converted post is 1
exactly because its merged list is non-empty. -/
theorem convert_attachment_flag_iff_nonempty_witness :
    convertedPostC.attachment = 1 ↔ convertedPostC.attachments ≠ [] :=
  convert_attachment_flag_iff_nonempty grfC gsfOkC gpOkC replyWithLocalC none
    convertedPostC rfl

/-- Witness for claim C6: two remote entries and one local entry merge
to remote0, remote1, local0. -/
theorem convert_merge_order_witness :
    ∃ post, convertOfflineReplyToOnline grfC gsfOkC gpOkC
        replyWithLocalC none = Except.ok post ∧
      post.attachments = ["remote0", "remote1"] ++ ["local0"] :=
  convert_merge_order grfC gsfOkC gpOkC replyWithLocalC none
    ⟨some true, some ⟨some ["remote0", "remote1"], true⟩⟩
    ⟨some ["remote0", "remote1"], true⟩
    ["remote0", "remote1"] ["local0"] rfl rfl rfl rfl rfl

/-- Witness for claim C10: a draft without options converts successfully
even though the stored-file listing collaborator would reject, with no
attachments, flag 0 and `isprivatereply` unset. -/
theorem convert_without_options_witness :
    ∃ post, convertOfflineReplyToOnline grfC gsfFailC gpOkC
        replyNoOptionsC none = Except.ok post ∧
      post.attachments = [] ∧ post.attachment = 0 ∧
      post.isprivatereply = none :=
  convert_without_options grfC gsfFailC gpOkC replyNoOptionsC none rfl
